import Mathlib

/-!
A verification development for `jni/gl_code.cpp`

The file embeds the rendering core of `jni/gl_code.cpp` (an OpenGL ES 2.0 renderer
of a synthetic YUV 4:2:0 frame) and proves properties of it.

Conventions of the embedding:

* `unsigned int`, `int` and `unsigned char` values are `Nat` / `Int` with the
  wrap-around written out (`wrapU32`, `wrapI32`, `wrapU8`);
* `float` / `double` / GLSL `float` arithmetic is exact arithmetic over `ℚ`;
* what the GL driver and `malloc` answer is an input of the functions that ask;
* the globals of the translation unit are fields of a record that is passed in
  and returned.
-/

namespace GlCode

/-! ## Machine integers -/

/-- Value kept by an `unsigned int` (32 bit) that is assigned `x`. -/
def wrapU32 (x : Nat) : Nat := x % 2 ^ 32

/-- Value kept by an `int` (32 bit, two's complement) that is assigned `x`. -/
def wrapI32 (x : Int) : Int := (x + 2 ^ 31) % 2 ^ 32 - 2 ^ 31

/-- Value kept by an `unsigned char` that is assigned `x`. -/
def wrapU8 (x : Nat) : Nat := x % 256

/-- Conversion of a floating point value to `int`: the fraction is discarded
(rounding toward zero). -/
def truncToInt (q : ℚ) : Int := q.num.tdiv q.den

/-! ## Constants -/

/-- Source line 34: `#define TEST_YUV_WIDTH 1920`. -/
def TEST_YUV_WIDTH : Nat := 1920

/-- Source line 35: `#define TEST_YUV_HEIGHT 1080`. -/
def TEST_YUV_HEIGHT : Nat := 1080

/-- The constant `GL_TRUE` of `GLES2/gl2.h`. -/
def GL_TRUE : Int := 1

/-- The constant `GL_FALSE` of `GLES2/gl2.h`. -/
def GL_FALSE : Int := 0

/-! ## `align_on_power_of_2` (lines 72-81) -/

/-- The `for` loop of `align_on_power_of_2`: `fuel` is the number of iterations
that remain (`32 - i`), `i` the loop counter. `c = 1 << i` is stored in an
`unsigned int`. When the loop runs out, the function returns `0`. -/
def align_loop (value : Nat) : Nat → Nat → Nat
  | 0, _ => 0
  | fuel + 1, i =>
    let c := wrapU32 (1 <<< i)
    if value ≤ c then c else align_loop value fuel (i + 1)

/-- The function `align_on_power_of_2`: the loop runs `i = 0, ..., 31`. -/
def align_on_power_of_2 (value : Nat) : Nat := align_loop value 32 0

/-! ## `load_orthographic_matrix` (lines 83-107) -/

/-- The sixteen entries written to `mat[0..15]`, in index order. -/
def load_orthographic_matrix (left right bottom top near far : ℚ) : List ℚ :=
  let r_l := right - left
  let t_b := top - bottom
  let f_n := far - near
  let tx := - (right + left) / (right - left)
  let ty := - (top + bottom) / (top - bottom)
  let tz := - (far + near) / (far - near)
  [2 / r_l, 0, 0, 0,
   0, 2 / t_b, 0, 0,
   0, 0, -2 / f_n, 0,
   tx, ty, tz, 1]

/-! ## The shaders (lines 122-155) -/

/-- GLSL `clamp(x, lo, hi)`, which is `min(max(x, lo), hi)`. -/
def clamp (x lo hi : ℚ) : ℚ := min (max x lo) hi

/-- The body of `gFragmentShader` after the three texture fetches: from the sampled
`y`, `u`, `v` to the `r`, `g`, `b` of `gl_FragColor`. -/
def gFragmentShader (y u v : ℚ) : ℚ × ℚ × ℚ :=
  let y := 1.16438355 * (y - 0.0625)
  let u := u - 0.5
  let v := v - 0.5
  let r := clamp (y + 1.596 * v) 0.0 1.0
  let g := clamp (y - 0.391 * u - 0.813 * v) 0.0 1.0
  let b := clamp (y + 2.018 * u) 0.0 1.0
  (r, g, b)

/-- The body of `gVertexShader`: `gl_Position` as `(x, y, z, w)`. `proj_matrix`
is the column-major `mat4` uniform given by its sixteen floats; `cosR` and `sinR`
stand for `cos(rotation)` and `sin(rotation)`. -/
def gVertexShader (proj_matrix : List ℚ) (cosR sinR : ℚ) (position : ℚ × ℚ) :
    ℚ × ℚ × ℚ × ℚ :=
  let m := fun i => proj_matrix.getD i 0
  -- rot * vec3(position.xy, 0.0), rot given by its three columns
  let px := position.1
  let py := position.2
  let rx := cosR * px + (-sinR) * py + 0 * 0
  let ry := sinR * px + cosR * py + 0 * 0
  let rz := 0 * px + 0 * py + 1 * 0
  -- proj_matrix * vec4(., 1.0)
  (m 0 * rx + m 4 * ry + m 8 * rz + m 12 * 1,
   m 1 * rx + m 5 * ry + m 9 * rz + m 13 * 1,
   m 2 * rx + m 6 * ry + m 10 * rz + m 14 * 1,
   m 3 * rx + m 7 * ry + m 11 * rz + m 15 * 1)

/-! ## `loadShader`, `createProgram`, `setupGraphics` (lines 157-289) -/

/-- What the GL driver and `malloc` answer during one call of `loadShader`. -/
structure ShaderEnv where
  /-- Result of `glCreateShader`. -/
  shader : Nat
  /-- Value of `GL_COMPILE_STATUS`. -/
  compiled : Int
  /-- Value of `GL_INFO_LOG_LENGTH`. -/
  infoLen : Int
  /-- Result of `malloc(infoLen)`. -/
  buf : Nat

/-- The function `loadShader`: the handle it returns. -/
def loadShader (e : ShaderEnv) : Nat :=
  let shader := e.shader
  if shader ≠ 0 then
    if e.compiled = 0 then
      if e.infoLen ≠ 0 then
        -- log, glDeleteShader(shader)
        0
      else shader
    else shader
  else shader

/-- What the GL driver and `malloc` answer during one call of `createProgram`. -/
structure ProgramEnv where
  /-- Answers for `loadShader(GL_VERTEX_SHADER, ...)`. -/
  vertex : ShaderEnv
  /-- Answers for `loadShader(GL_FRAGMENT_SHADER, ...)`. -/
  fragment : ShaderEnv
  /-- Result of `glCreateProgram`. -/
  program : Nat
  /-- Value of `GL_LINK_STATUS`. -/
  linkStatus : Int
  /-- Value of `GL_INFO_LOG_LENGTH` of the program. -/
  bufLength : Int
  /-- Result of `malloc(bufLength)`. -/
  buf : Nat

/-- The function `createProgram`: the handle it returns. -/
def createProgram (e : ProgramEnv) : Nat :=
  let vertexShader := loadShader e.vertex
  if vertexShader = 0 then 0
  else
    let pixelShader := loadShader e.fragment
    if pixelShader = 0 then 0
    else
      let program := e.program
      if program ≠ 0 then
        if e.linkStatus ≠ GL_TRUE then
          -- log, glDeleteProgram(program)
          0
        else program
      else program

/-- The globals that `setupGraphics` assigns; a buffer is its address, `0` for
`NULL`. -/
structure SetupGlobals where
  s_pYBuffer : Nat
  s_pUBuffer : Nat
  s_pVBuffer : Nat
  gProgram : Nat
  backingWidth : Int
  backingHeight : Int
  bNeedInit : Bool

/-- The function `setupGraphics`: `mallocY`, `mallocU`, `mallocV` are the
results of the three `malloc` calls, `gl` the answers of the driver. Returns the
`bool` and the globals. -/
def setupGraphics (w h : Int) (mallocY mallocU mallocV : Nat) (gl : ProgramEnv)
    (g : SetupGlobals) : Bool × SetupGlobals :=
  let g := { g with s_pYBuffer := mallocY, s_pUBuffer := mallocU, s_pVBuffer := mallocV }
  if g.s_pYBuffer = 0 ∨ g.s_pUBuffer = 0 ∨ g.s_pVBuffer = 0 then
    -- goto out: every buffer that was obtained is freed and set to NULL
    let g := if g.s_pYBuffer ≠ 0 then { g with s_pYBuffer := 0 } else g
    let g := if g.s_pUBuffer ≠ 0 then { g with s_pUBuffer := 0 } else g
    let g := if g.s_pVBuffer ≠ 0 then { g with s_pVBuffer := 0 } else g
    (false, g)
  else
    let g := { g with gProgram := createProgram gl }
    if g.gProgram = 0 then (false, g)
    else
      (true, { g with backingWidth := w, backingHeight := h, bNeedInit := true })

/-! ## `renderFrame` (lines 294-446) -/

/-- Lines 295-296: the padded size as it is stored in the `int` variable
`gl_width` / `gl_height`, for the source size `n`. -/
def paddedDim (n : Nat) : Int := wrapI32 (align_on_power_of_2 n)

/-- Lines 327-328: `n / (float)(gl + 1)` with `gl` the padded size of `n`. -/
def uvExtent (n : Nat) : ℚ := (n : ℚ) / ((wrapI32 (paddedDim n + 1) : Int) : ℚ)

/-- The call `memset(buf, c, n)` on the bytes of an allocated buffer: the first
`n` bytes become `(unsigned char) c`. -/
def memset (buf : List Nat) (c n : Nat) : List Nat :=
  List.replicate n (wrapU8 c) ++ buf.drop n

/-- The statement that the macro `ENSURE_RANGE_A_INSIDE_RANGE_B(a, aSize, bMin, bMax)`
expands to, as the new value of `a`. -/
def ENSURE_RANGE_A_INSIDE_RANGE_B (a aSize bMin bMax : ℚ) : ℚ :=
  if 2 * aSize ≥ bMax - bMin then 0
  else if a - aSize < bMin ∨ a + aSize > bMax then
    let diff := if a - aSize < bMin then bMin - (a - aSize) else bMax - (a + aSize)
    a + diff
  else a

/-- The macro `degreesToRadians(d)` of line 424. -/
def degreesToRadians (d : ℚ) : ℚ := 2.0 * 3.14157 * d / 360.0

/-- The globals (and the function-local `static unsigned char color`) that
`renderFrame` reads and writes; a plane buffer is the list of the bytes of the
allocated block. -/
structure Globals where
  s_pYBuffer : List Nat
  s_pUBuffer : List Nat
  s_pVBuffer : List Nat
  backingWidth : Int
  backingHeight : Int
  gl_width : Int
  gl_height : Int
  bNeedInit : Bool
  color : Nat

/-- The values that `renderFrame` hands to the draw call. -/
structure Frame where
  squareUvs : List ℚ
  squareVertices : List ℚ
  zoom_cx : ℚ
  zoom_cy : ℚ
  vpDim : ℚ
  mat : List ℚ
  rad : ℚ

/-- The function `renderFrame`: the globals after the call and the values of the
draw call. -/
def renderFrame (g : Globals) : Globals × Frame :=
  let gl_width := paddedDim TEST_YUV_WIDTH
  let gl_height := paddedDim TEST_YUV_HEIGHT
  let uLeft : ℚ := 0.0
  let vBottom : ℚ := 0.0
  let uRight := uvExtent TEST_YUV_WIDTH
  let vTop := uvExtent TEST_YUV_HEIGHT
  let xpos : ℚ := 0.0
  let ypos : ℚ := 0.0
  let squareUvs := [uLeft, vTop, uRight, vTop, uLeft, vBottom, uRight, vBottom]
  let color := g.color
  let yBuffer := memset g.s_pYBuffer color (TEST_YUV_WIDTH * TEST_YUV_HEIGHT)
  let uBuffer := memset g.s_pUBuffer color (TEST_YUV_WIDTH * TEST_YUV_HEIGHT / 4)
  let vBuffer := memset g.s_pVBuffer color (TEST_YUV_WIDTH * TEST_YUV_HEIGHT / 4)
  let color := wrapU8 (color + 1)
  let screenW := g.backingWidth
  let screenH := g.backingHeight
  let h := screenH
  let w := screenW
  let x := truncToInt (xpos * screenW)
  let y := truncToInt (ypos * screenH)
  let squareVertices : List ℚ :=
    [((x : ℚ) - w * 0.5) / screenW - 0,
     ((y : ℚ) - h * 0.5) / screenH - 0,
     ((x : ℚ) + w * 0.5) / screenW - 0,
     ((y : ℚ) - h * 0.5) / screenH - 0,
     ((x : ℚ) - w * 0.5) / screenW - 0,
     ((y : ℚ) + h * 0.5) / screenH - 0,
     ((x : ℚ) + w * 0.5) / screenW - 0,
     ((y : ℚ) + h * 0.5) / screenH - 0]
  let sv := fun i => squareVertices.getD i 0
  let zoom_factor : ℚ := 1.0
  let zoom_cx : ℚ := 0.0
  let zoom_cy : ℚ := 0.0
  let VP_SIZE : ℚ := 1.0
  let scale_factor := 1.0 / zoom_factor
  let vpDim := (VP_SIZE * scale_factor) / 2
  let zoom_cx := ENSURE_RANGE_A_INSIDE_RANGE_B zoom_cx vpDim (sv 0) (sv 2)
  let zoom_cy := ENSURE_RANGE_A_INSIDE_RANGE_B zoom_cy vpDim (sv 1) (sv 7)
  let mat := load_orthographic_matrix (zoom_cx - vpDim) (zoom_cx + vpDim)
    (zoom_cy - vpDim) (zoom_cy + vpDim) 0 0.5
  let rad := degreesToRadians 0
  ({ g with
      gl_width := gl_width, gl_height := gl_height, bNeedInit := false,
      s_pYBuffer := yBuffer, s_pUBuffer := uBuffer, s_pVBuffer := vBuffer,
      color := color },
   { squareUvs := squareUvs, squareVertices := squareVertices,
     zoom_cx := zoom_cx, zoom_cy := zoom_cy, vpDim := vpDim, mat := mat, rad := rad })

/-- The globals after `k` successive calls of `renderFrame`. -/
def renderFrames : Nat → Globals → Globals
  | 0, g => g
  | k + 1, g => (renderFrame (renderFrames k g)).1

/-- Globals as `setupGraphics(1280, 720)` leaves them: three allocated planes
(the bytes are arbitrary, here `0`) and the surface size. -/
def globalsAfterSetup : Globals :=
  { s_pYBuffer := List.replicate (TEST_YUV_WIDTH * TEST_YUV_HEIGHT) 0
    s_pUBuffer := List.replicate (TEST_YUV_WIDTH * TEST_YUV_HEIGHT / 4) 0
    s_pVBuffer := List.replicate (TEST_YUV_WIDTH * TEST_YUV_HEIGHT / 4) 0
    backingWidth := 1280
    backingHeight := 720
    gl_width := 0
    gl_height := 0
    bNeedInit := true
    color := 0 }

/-! ## Properties of `align_on_power_of_2` -/

theorem wrapU32_one_shiftLeft (i : Nat) (h : i < 32) : wrapU32 (1 <<< i) = 2 ^ i := by
  have hlt : 2 ^ i < 2 ^ 32 := Nat.pow_lt_pow_right (by norm_num) h
  simp only [wrapU32, Nat.one_shiftLeft]
  exact Nat.mod_eq_of_lt hlt

theorem align_loop_spec (value : Nat) (hv : value ≤ 2 ^ 31) :
    ∀ (fuel i : Nat), i + fuel = 32 → 0 < fuel → (∀ j, j < i → 2 ^ j < value) →
      ∃ k, i ≤ k ∧ k ≤ 31 ∧ align_loop value fuel i = 2 ^ k ∧ value ≤ 2 ^ k ∧
        ∀ j, j < k → 2 ^ j < value := by
  intro fuel
  induction fuel with
  | zero => intro i _ hf; exact absurd hf (by decide)
  | succ fuel ih =>
    intro i hi _ hlow
    have hi32 : i < 32 := by omega
    simp only [align_loop, wrapU32_one_shiftLeft i hi32]
    by_cases hc : value ≤ 2 ^ i
    · rw [if_pos hc]
      exact ⟨i, le_refl i, by omega, rfl, hc, hlow⟩
    · rw [if_neg hc]
      have hfuel : 0 < fuel := by
        rcases Nat.eq_zero_or_pos fuel with h0 | h0
        · exfalso
          have h31 : i = 31 := by omega
          rw [h31] at hc
          exact hc hv
        · exact h0
      have hlow' : ∀ j, j < i + 1 → 2 ^ j < value := by
        intro j hj
        rcases Nat.lt_succ_iff_lt_or_eq.mp hj with h | h
        · exact hlow j h
        · rw [h]; exact Nat.lt_of_not_le hc
      obtain ⟨k, hk1, hk2, hk3, hk4, hk5⟩ := ih (i + 1) (by omega) hfuel hlow'
      exact ⟨k, by omega, hk2, hk3, hk4, hk5⟩

/-- C1: for every `n` with `0 < n ≤ 2^31`, `align_on_power_of_2 n` is the smallest
power of two that is `≥ n`: it is `2^k` for some `k ≤ 31`, it is `≥ n`, and every
power of two that is `≥ n` is at least as large. In particular the results for
`1920`, `1080`, `1` and `2` are `2048`, `2048`, `1` and `2`. -/
theorem align_on_power_of_2_smallest (n : Nat) (_h0 : 0 < n) (h1 : n ≤ 2 ^ 31) :
    (∃ k, k ≤ 31 ∧ align_on_power_of_2 n = 2 ^ k) ∧
    n ≤ align_on_power_of_2 n ∧
    (∀ j, n ≤ 2 ^ j → align_on_power_of_2 n ≤ 2 ^ j) ∧
    align_on_power_of_2 1920 = 2048 ∧ align_on_power_of_2 1080 = 2048 ∧
    align_on_power_of_2 1 = 1 ∧ align_on_power_of_2 2 = 2 := by
  obtain ⟨k, _, hk2, hk3, hk4, hk5⟩ :=
    align_loop_spec n h1 32 0 (by norm_num) (by norm_num) (fun j hj => absurd hj (Nat.not_lt_zero j))
  have hk3' : align_on_power_of_2 n = 2 ^ k := hk3
  refine ⟨⟨k, hk2, hk3'⟩, by rw [hk3']; exact hk4, ?_, by decide, by decide, by decide, by decide⟩
  intro j hj
  rw [hk3']
  apply Nat.pow_le_pow_right (by norm_num)
  by_contra hjk
  have := hk5 j (by omega)
  omega

theorem align_on_power_of_2_smallest_witness :
    (0 < 1000 ∧ 1000 ≤ 2 ^ 31) ∧
    ((∃ k, k ≤ 31 ∧ align_on_power_of_2 1000 = 2 ^ k) ∧
    1000 ≤ align_on_power_of_2 1000 ∧
    (∀ j, 1000 ≤ 2 ^ j → align_on_power_of_2 1000 ≤ 2 ^ j) ∧
    align_on_power_of_2 1920 = 2048 ∧ align_on_power_of_2 1080 = 2048 ∧
    align_on_power_of_2 1 = 1 ∧ align_on_power_of_2 2 = 2) :=
  ⟨by decide, align_on_power_of_2_smallest 1000 (by decide) (by decide)⟩

/-! ## The UV extent of `renderFrame` -/

theorem wrapI32_of_range (x : Int) (h0 : -2 ^ 31 ≤ x) (h1 : x < 2 ^ 31) : wrapI32 x = x := by
  unfold wrapI32
  have h : (x + 2 ^ 31) % 2 ^ 32 = x + 2 ^ 31 :=
    Int.emod_eq_of_lt (by omega) (by omega)
  omega

theorem align_on_power_of_2_le (n : Nat) (h1 : n ≤ 2 ^ 30) :
    n ≤ align_on_power_of_2 n ∧ align_on_power_of_2 n ≤ 2 ^ 30 := by
  obtain ⟨k, _, hk2, hk3, hk4, hk5⟩ :=
    align_loop_spec n (le_trans h1 (by norm_num)) 32 0 (by norm_num) (by norm_num)
      (fun j hj => absurd hj (Nat.not_lt_zero j))
  have hk3' : align_on_power_of_2 n = 2 ^ k := hk3
  rw [hk3']
  refine ⟨hk4, ?_⟩
  apply Nat.pow_le_pow_right (by norm_num)
  by_contra hjk
  have := hk5 30 (by omega)
  omega

theorem paddedDim_eq (n : Nat) (h1 : n ≤ 2 ^ 30) :
    paddedDim n = (align_on_power_of_2 n : Int) := by
  have h := (align_on_power_of_2_le n h1).2
  unfold paddedDim
  apply wrapI32_of_range <;> omega

theorem uvExtent_eq (n : Nat) (h1 : n ≤ 2 ^ 30) :
    uvExtent n = (n : ℚ) / ((align_on_power_of_2 n : ℚ) + 1) := by
  have h := (align_on_power_of_2_le n h1).2
  unfold uvExtent
  rw [paddedDim_eq n h1, wrapI32_of_range _ (by omega) (by omega)]
  push_cast
  rfl

/-- C2, counterexample: for the source dimension `n = 2^30 + 1` the padded size is
`2^31`, the `int` variable holds `-2^31`, and `n / (p + 1)` is negative, so it is
not within `(0, 1]`. -/
theorem uvExtent_not_in_unit_interval :
    0 < 1073741825 ∧ 1073741825 ≤ 2 ^ 31 ∧
    align_on_power_of_2 1073741825 = 2147483648 ∧
    paddedDim 1073741825 = -2147483648 ∧
    uvExtent 1073741825 = -(1073741825 / 2147483647) ∧
    ¬ (0 < uvExtent 1073741825 ∧ uvExtent 1073741825 ≤ 1) := by
  have ha : align_on_power_of_2 1073741825 = 2147483648 := by decide
  have hp : paddedDim 1073741825 = -2147483648 := by
    unfold paddedDim
    rw [ha]
    decide
  have hu : uvExtent 1073741825 = -(1073741825 / 2147483647) := by
    unfold uvExtent
    rw [hp]
    have hw : wrapI32 (-2147483648 + 1) = -2147483647 := by decide
    rw [hw]
    norm_num
  refine ⟨by norm_num, by norm_num, ha, hp, hu, ?_⟩
  rw [hu]
  norm_num

/-- C2, amended: for every source dimension `n` with `0 < n ≤ 2^30`, the padded size
`p = align_on_power_of_2 n` is stored unchanged in the `int` variable, the extent that
`renderFrame` computes is `n / (p + 1)`, and `0 < n / (p + 1) ≤ 1`. For the source
sizes of `renderFrame` the padded width is `2048`, `uRight = 1920 / 2049`, and the
UV array of the draw call is built from `uRight` and `vTop`. -/
theorem uvExtent_in_unit_interval (n : Nat) (h0 : 0 < n) (h1 : n ≤ 2 ^ 30) :
    paddedDim n = (align_on_power_of_2 n : Int) ∧
    uvExtent n = (n : ℚ) / ((align_on_power_of_2 n : ℚ) + 1) ∧
    0 < uvExtent n ∧ uvExtent n ≤ 1 ∧
    paddedDim TEST_YUV_WIDTH = 2048 ∧ uvExtent TEST_YUV_WIDTH = 1920 / 2049 ∧
    ∀ g : Globals,
      (renderFrame g).1.gl_width = 2048 ∧
      (renderFrame g).2.squareUvs =
        [0, uvExtent TEST_YUV_HEIGHT, uvExtent TEST_YUV_WIDTH, uvExtent TEST_YUV_HEIGHT,
         0, 0, uvExtent TEST_YUV_WIDTH, 0] := by
  have hle := (align_on_power_of_2_le n h1).1
  have hn : (0 : ℚ) < n := by exact_mod_cast h0
  have hle' : (n : ℚ) ≤ (align_on_power_of_2 n : ℚ) := by exact_mod_cast hle
  have hden : (0 : ℚ) < (align_on_power_of_2 n : ℚ) + 1 := by linarith
  have ha : align_on_power_of_2 1920 = 2048 := by decide
  have hp : paddedDim TEST_YUV_WIDTH = 2048 := by
    rw [paddedDim_eq _ (by norm_num [TEST_YUV_WIDTH])]
    simp only [TEST_YUV_WIDTH, ha]
    rfl
  have hu : uvExtent TEST_YUV_WIDTH = 1920 / 2049 := by
    rw [uvExtent_eq _ (by norm_num [TEST_YUV_WIDTH])]
    simp only [TEST_YUV_WIDTH, ha]
    norm_num
  refine ⟨paddedDim_eq n h1, uvExtent_eq n h1, ?_, ?_, hp, hu, ?_⟩
  · rw [uvExtent_eq n h1]
    exact div_pos hn hden
  · rw [uvExtent_eq n h1, div_le_one hden]
    linarith
  · intro g
    refine ⟨hp, ?_⟩
    simp only [renderFrame]
    norm_num

theorem uvExtent_in_unit_interval_witness :
    (0 < 1080 ∧ 1080 ≤ 2 ^ 30) ∧
    (paddedDim 1080 = (align_on_power_of_2 1080 : Int) ∧
    uvExtent 1080 = ((1080 : Nat) : ℚ) / ((align_on_power_of_2 1080 : ℚ) + 1) ∧
    0 < uvExtent 1080 ∧ uvExtent 1080 ≤ 1 ∧
    paddedDim TEST_YUV_WIDTH = 2048 ∧ uvExtent TEST_YUV_WIDTH = 1920 / 2049 ∧
    ∀ g : Globals,
      (renderFrame g).1.gl_width = 2048 ∧
      (renderFrame g).2.squareUvs =
        [0, uvExtent TEST_YUV_HEIGHT, uvExtent TEST_YUV_WIDTH, uvExtent TEST_YUV_HEIGHT,
         0, 0, uvExtent TEST_YUV_WIDTH, 0]) :=
  ⟨by decide, uvExtent_in_unit_interval 1080 (by decide) (by decide)⟩

/-! ## The colour conversion of the fragment shader -/

/-- C3: in exact arithmetic the conversion of `gFragmentShader` maps
`(y, u, v) = (0.0625, 0.5, 0.5)` to `(r, g, b) = (0, 0, 0)` and
`(y, u, v) = (1.0, 0.5, 0.5)` to `(r, g, b) = (1, 1, 1)`. -/
theorem gFragmentShader_boundary :
    gFragmentShader 0.0625 0.5 0.5 = (0, 0, 0) ∧
    gFragmentShader 1.0 0.5 0.5 = (1, 1, 1) := by
  constructor
  · norm_num [gFragmentShader, clamp]
  · norm_num [gFragmentShader, clamp]

/-! ## The synthetic frame of `renderFrame` -/

theorem memset_take (buf : List Nat) (c n : Nat) :
    List.take n (memset buf c n) = List.replicate n (c % 256) := by
  unfold memset wrapU8
  exact List.take_left' (List.length_replicate n (c % 256))

theorem renderFrame_color (g : Globals) : (renderFrame g).1.color = (g.color + 1) % 256 := rfl

theorem renderFrame_s_pYBuffer (g : Globals) :
    (renderFrame g).1.s_pYBuffer =
      memset g.s_pYBuffer g.color (TEST_YUV_WIDTH * TEST_YUV_HEIGHT) := rfl

theorem renderFrame_s_pUBuffer (g : Globals) :
    (renderFrame g).1.s_pUBuffer =
      memset g.s_pUBuffer g.color (TEST_YUV_WIDTH * TEST_YUV_HEIGHT / 4) := rfl

theorem renderFrame_s_pVBuffer (g : Globals) :
    (renderFrame g).1.s_pVBuffer =
      memset g.s_pVBuffer g.color (TEST_YUV_WIDTH * TEST_YUV_HEIGHT / 4) := rfl

theorem renderFrames_color (k : Nat) (g : Globals) :
    (renderFrames k { g with color := 0 }).color = k % 256 := by
  induction k with
  | zero => rfl
  | succ k ih =>
    show (renderFrame (renderFrames k { g with color := 0 })).1.color = (k + 1) % 256
    rw [renderFrame_color, ih]
    omega

/-- C4: counting from a state in which the static counter `color` is `0`, the
`(k+1)`-th call of `renderFrame` sets every byte of the Y, the U and the V plane
to the same value `k mod 256`; the counter after the call is the value of this call
plus `1` modulo `256`, which is the value of the next call, and the call after a
fill of `255` fills with `0`. -/
theorem renderFrame_gray_cycle (k : Nat) (g : Globals) :
    (renderFrames k { g with color := 0 }).color = k % 256 ∧
    List.take (TEST_YUV_WIDTH * TEST_YUV_HEIGHT)
        (renderFrame (renderFrames k { g with color := 0 })).1.s_pYBuffer =
      List.replicate (TEST_YUV_WIDTH * TEST_YUV_HEIGHT) (k % 256) ∧
    List.take (TEST_YUV_WIDTH * TEST_YUV_HEIGHT / 4)
        (renderFrame (renderFrames k { g with color := 0 })).1.s_pUBuffer =
      List.replicate (TEST_YUV_WIDTH * TEST_YUV_HEIGHT / 4) (k % 256) ∧
    List.take (TEST_YUV_WIDTH * TEST_YUV_HEIGHT / 4)
        (renderFrame (renderFrames k { g with color := 0 })).1.s_pVBuffer =
      List.replicate (TEST_YUV_WIDTH * TEST_YUV_HEIGHT / 4) (k % 256) ∧
    (renderFrames (k + 1) { g with color := 0 }).color =
      ((renderFrames k { g with color := 0 }).color + 1) % 256 ∧
    (renderFrames 255 { g with color := 0 }).color = 255 ∧
    (renderFrames 256 { g with color := 0 }).color = 0 := by
  have hk := renderFrames_color k g
  have hmod : k % 256 % 256 = k % 256 := Nat.mod_mod k 256
  refine ⟨hk, ?_, ?_, ?_, ?_, renderFrames_color 255 g, renderFrames_color 256 g⟩
  · rw [renderFrame_s_pYBuffer, memset_take, hk, hmod]
  · rw [renderFrame_s_pUBuffer, memset_take, hk, hmod]
  · rw [renderFrame_s_pVBuffer, memset_take, hk, hmod]
  · rw [renderFrames_color (k + 1) g, hk]
    omega

/-! ## The result of `setupGraphics` -/

theorem loadShader_ne_zero_iff (e : ShaderEnv) :
    loadShader e ≠ 0 ↔ e.shader ≠ 0 ∧ (e.compiled ≠ 0 ∨ e.infoLen = 0) := by
  unfold loadShader
  by_cases h1 : e.shader = 0 <;> by_cases h2 : e.compiled = 0 <;>
    by_cases h3 : e.infoLen = 0 <;> simp [h1, h2, h3]

theorem createProgram_ne_zero_iff (e : ProgramEnv) :
    createProgram e ≠ 0 ↔
      loadShader e.vertex ≠ 0 ∧ loadShader e.fragment ≠ 0 ∧ e.program ≠ 0 ∧
        e.linkStatus = GL_TRUE := by
  unfold createProgram
  by_cases h1 : loadShader e.vertex = 0 <;> by_cases h2 : loadShader e.fragment = 0 <;>
    by_cases h3 : e.program = 0 <;> by_cases h4 : e.linkStatus = GL_TRUE <;>
    simp [h1, h2, h3, h4]

theorem setupGraphics_true_iff (w h : Int) (mallocY mallocU mallocV : Nat) (gl : ProgramEnv)
    (g : SetupGlobals) :
    (setupGraphics w h mallocY mallocU mallocV gl g).1 = true ↔
      mallocY ≠ 0 ∧ mallocU ≠ 0 ∧ mallocV ≠ 0 ∧ createProgram gl ≠ 0 := by
  unfold setupGraphics
  by_cases h1 : mallocY = 0 <;> by_cases h2 : mallocU = 0 <;>
    by_cases h3 : mallocV = 0 <;> by_cases h4 : createProgram gl = 0 <;>
    simp [h1, h2, h3, h4]

/-- C5, the failing input: all three allocations succeed, the vertex stage reports
compile status `GL_FALSE` with an info log of length `0`, the fragment stage compiles,
and the program reports link status `GL_TRUE`. `loadShader` returns the handle of the
vertex shader that did not compile, and `setupGraphics` returns `true`. -/
theorem setupGraphics_true_on_compile_failure (g : SetupGlobals) :
    loadShader { shader := 1, compiled := GL_FALSE, infoLen := 0, buf := 0 } = 1 ∧
    (setupGraphics 1280 720 4096 8192 12288
      { vertex := { shader := 1, compiled := GL_FALSE, infoLen := 0, buf := 0 },
        fragment := { shader := 2, compiled := GL_TRUE, infoLen := 0, buf := 0 },
        program := 3, linkStatus := GL_TRUE, bufLength := 0, buf := 0 } g).1 = true := by
  constructor
  · simp [loadShader, GL_FALSE]
  · simp [setupGraphics, createProgram, loadShader, GL_FALSE, GL_TRUE]

/-! ## The orthographic matrix -/

/-- C6: for the symmetric bounds `(-d, d, -d, d)` with `d ≠ 0` and `near ≠ far`, the
matrix of `load_orthographic_matrix` has `mat[12] = 0`, `mat[13] = 0` and
`mat[0] = mat[5] = 1 / d`. -/
theorem load_orthographic_matrix_symmetric (d near far : ℚ) (hd : d ≠ 0) (_hnf : near ≠ far) :
    (load_orthographic_matrix (-d) d (-d) d near far).getD 12 0 = 0 ∧
    (load_orthographic_matrix (-d) d (-d) d near far).getD 13 0 = 0 ∧
    (load_orthographic_matrix (-d) d (-d) d near far).getD 0 0 = 1 / d ∧
    (load_orthographic_matrix (-d) d (-d) d near far).getD 5 0 = 1 / d := by
  have h2 : d - -d = 2 * d := by ring
  have h0 : d + -d = 0 := by ring
  simp only [load_orthographic_matrix, List.getD_cons_zero, List.getD_cons_succ, h2, h0]
  refine ⟨by simp, by simp, ?_, ?_⟩ <;> field_simp

theorem load_orthographic_matrix_symmetric_witness :
    ((3 : ℚ) ≠ 0 ∧ (0 : ℚ) ≠ 1 / 2) ∧
    ((load_orthographic_matrix (-3) 3 (-3) 3 0 (1 / 2)).getD 12 0 = 0 ∧
    (load_orthographic_matrix (-3) 3 (-3) 3 0 (1 / 2)).getD 13 0 = 0 ∧
    (load_orthographic_matrix (-3) 3 (-3) 3 0 (1 / 2)).getD 0 0 = 1 / 3 ∧
    (load_orthographic_matrix (-3) 3 (-3) 3 0 (1 / 2)).getD 5 0 = 1 / 3) :=
  ⟨by norm_num, load_orthographic_matrix_symmetric 3 0 (1 / 2) (by norm_num) (by norm_num)⟩

/-! ## The viewport clamp rule -/

theorem ENSURE_RANGE_fixed (a aSize bMin bMax : ℚ) :
    ENSURE_RANGE_A_INSIDE_RANGE_B (ENSURE_RANGE_A_INSIDE_RANGE_B a aSize bMin bMax)
      aSize bMin bMax = ENSURE_RANGE_A_INSIDE_RANGE_B a aSize bMin bMax := by
  by_cases h1 : 2 * aSize ≥ bMax - bMin
  · simp only [ENSURE_RANGE_A_INSIDE_RANGE_B, if_pos h1]
  · have h1' : 2 * aSize < bMax - bMin := lt_of_not_ge h1
    by_cases h2 : a - aSize < bMin
    · have hr : ENSURE_RANGE_A_INSIDE_RANGE_B a aSize bMin bMax = bMin + aSize := by
        simp only [ENSURE_RANGE_A_INSIDE_RANGE_B, if_neg h1,
          if_pos (Or.inl h2 : a - aSize < bMin ∨ a + aSize > bMax), if_pos h2]
        ring
      have h3 : ¬ (bMin + aSize - aSize < bMin ∨ bMin + aSize + aSize > bMax) := by
        intro h
        rcases h with h | h <;> linarith
      rw [hr]
      simp only [ENSURE_RANGE_A_INSIDE_RANGE_B, if_neg h1, if_neg h3]
    · by_cases h4 : a + aSize > bMax
      · have hr : ENSURE_RANGE_A_INSIDE_RANGE_B a aSize bMin bMax = bMax - aSize := by
          simp only [ENSURE_RANGE_A_INSIDE_RANGE_B, if_neg h1,
            if_pos (Or.inr h4 : a - aSize < bMin ∨ a + aSize > bMax), if_neg h2]
          ring
        have h3 : ¬ (bMax - aSize - aSize < bMin ∨ bMax - aSize + aSize > bMax) := by
          intro h
          rcases h with h | h <;> linarith
        rw [hr]
        simp only [ENSURE_RANGE_A_INSIDE_RANGE_B, if_neg h1, if_neg h3]
      · have h3 : ¬ (a - aSize < bMin ∨ a + aSize > bMax) := by
          intro h
          rcases h with h | h
          · exact h2 h
          · exact h4 h
        simp only [ENSURE_RANGE_A_INSIDE_RANGE_B, if_neg h1, if_neg h3]

theorem snap_when_crop_covers (a vpDim bMin bMax : ℚ) (h : 2 * vpDim ≥ bMax - bMin) :
    ENSURE_RANGE_A_INSIDE_RANGE_B a vpDim bMin bMax = 0 := by
  simp only [ENSURE_RANGE_A_INSIDE_RANGE_B, if_pos h]

/-- C7: the clamp rule `ENSURE_RANGE_A_INSIDE_RANGE_B` is idempotent: applied to the
center it has produced, with the same half-size and bounds, it yields that center
again; this holds on each axis and so for the pair `(centerX, centerY)`. -/
theorem ENSURE_RANGE_idempotent (cx cy aSize xMin xMax yMin yMax : ℚ) :
    ENSURE_RANGE_A_INSIDE_RANGE_B (ENSURE_RANGE_A_INSIDE_RANGE_B cx aSize xMin xMax)
      aSize xMin xMax = ENSURE_RANGE_A_INSIDE_RANGE_B cx aSize xMin xMax ∧
    (ENSURE_RANGE_A_INSIDE_RANGE_B (ENSURE_RANGE_A_INSIDE_RANGE_B cx aSize xMin xMax)
        aSize xMin xMax,
     ENSURE_RANGE_A_INSIDE_RANGE_B (ENSURE_RANGE_A_INSIDE_RANGE_B cy aSize yMin yMax)
        aSize yMin yMax) =
    (ENSURE_RANGE_A_INSIDE_RANGE_B cx aSize xMin xMax,
     ENSURE_RANGE_A_INSIDE_RANGE_B cy aSize yMin yMax) := by
  refine ⟨ENSURE_RANGE_fixed cx aSize xMin xMax, ?_⟩
  rw [ENSURE_RANGE_fixed cx aSize xMin xMax, ENSURE_RANGE_fixed cy aSize yMin yMax]

/-- C8, counterexample: with the center `0`, the half-size `1 > 0` and the quad
bounds `-1/2 < 1/2`, the rule snaps the center to `0`, and the crop window `[-1, 1]`
is not inside the quad bounds. -/
theorem ENSURE_RANGE_window_not_inside :
    (0 : ℚ) < 1 ∧ (-1 / 2 : ℚ) < 1 / 2 ∧
    ENSURE_RANGE_A_INSIDE_RANGE_B 0 1 (-1 / 2) (1 / 2) = 0 ∧
    ¬ ((-1 / 2 : ℚ) ≤ ENSURE_RANGE_A_INSIDE_RANGE_B 0 1 (-1 / 2) (1 / 2) - 1 ∧
       ENSURE_RANGE_A_INSIDE_RANGE_B 0 1 (-1 / 2) (1 / 2) + 1 ≤ 1 / 2) := by
  have h : ENSURE_RANGE_A_INSIDE_RANGE_B 0 1 (-1 / 2) (1 / 2) = 0 := by
    norm_num [ENSURE_RANGE_A_INSIDE_RANGE_B]
  refine ⟨by norm_num, by norm_num, h, ?_⟩
  rw [h]
  norm_num

theorem window_inside_of_narrow (a vpDim bMin bMax : ℚ) (hfit : 2 * vpDim < bMax - bMin) :
    bMin ≤ ENSURE_RANGE_A_INSIDE_RANGE_B a vpDim bMin bMax - vpDim ∧
    ENSURE_RANGE_A_INSIDE_RANGE_B a vpDim bMin bMax + vpDim ≤ bMax := by
  have h1 : ¬ (2 * vpDim ≥ bMax - bMin) := not_le.mpr hfit
  by_cases h2 : a - vpDim < bMin
  · simp only [ENSURE_RANGE_A_INSIDE_RANGE_B, if_neg h1,
      if_pos (Or.inl h2 : a - vpDim < bMin ∨ a + vpDim > bMax), if_pos h2]
    constructor <;> linarith
  · by_cases h4 : a + vpDim > bMax
    · simp only [ENSURE_RANGE_A_INSIDE_RANGE_B, if_neg h1,
        if_pos (Or.inr h4 : a - vpDim < bMin ∨ a + vpDim > bMax), if_neg h2]
      constructor <;> linarith
    · have h3 : ¬ (a - vpDim < bMin ∨ a + vpDim > bMax) := by
        intro h
        rcases h with h | h
        · exact h2 h
        · exact h4 h
      simp only [ENSURE_RANGE_A_INSIDE_RANGE_B, if_neg h1, if_neg h3]
      exact ⟨not_lt.mp h2, not_lt.mp h4⟩

theorem window_inside_of_exact_cover (a vpDim : ℚ) :
    -vpDim ≤ ENSURE_RANGE_A_INSIDE_RANGE_B a vpDim (-vpDim) vpDim - vpDim ∧
    ENSURE_RANGE_A_INSIDE_RANGE_B a vpDim (-vpDim) vpDim + vpDim ≤ vpDim := by
  have h1 : 2 * vpDim ≥ vpDim - -vpDim := by linarith
  simp only [ENSURE_RANGE_A_INSIDE_RANGE_B, if_pos h1]
  constructor <;> linarith

/-- The crop window that the clamp rule produces is inside the quad bounds exactly
when the crop is narrower than the quad or the quad bounds are `(-vpDim, vpDim)`. -/
theorem window_inside_iff (a vpDim bMin bMax : ℚ) :
    (bMin ≤ ENSURE_RANGE_A_INSIDE_RANGE_B a vpDim bMin bMax - vpDim ∧
      ENSURE_RANGE_A_INSIDE_RANGE_B a vpDim bMin bMax + vpDim ≤ bMax) ↔
    (2 * vpDim < bMax - bMin ∨ (bMin = -vpDim ∧ bMax = vpDim)) := by
  constructor
  · intro hin
    by_cases h1 : 2 * vpDim ≥ bMax - bMin
    · right
      simp only [ENSURE_RANGE_A_INSIDE_RANGE_B, if_pos h1] at hin
      obtain ⟨hl, hr⟩ := hin
      constructor <;> linarith
    · left
      exact lt_of_not_ge h1
  · intro h
    rcases h with h | ⟨hmin, hmax⟩
    · exact window_inside_of_narrow a vpDim bMin bMax h
    · rw [hmin, hmax]
      exact window_inside_of_exact_cover a vpDim

/-- C8, amended: for every center `a`, half-size `vpDim > 0` and quad bounds
`bMin < bMax` with `2 * vpDim < bMax - bMin` (the crop is narrower than the quad) or
with `bMin = -vpDim` and `bMax = vpDim` (the crop covers the quad exactly, which is the
call of `renderFrame`), the center `a'` that the clamp rule produces gives a crop
window inside the quad bounds: `bMin ≤ a' - vpDim` and `a' + vpDim ≤ bMax`. -/
theorem ENSURE_RANGE_window_inside (a vpDim bMin bMax : ℚ) (_hv : 0 < vpDim)
    (_hb : bMin < bMax)
    (hfit : 2 * vpDim < bMax - bMin ∨ (bMin = -vpDim ∧ bMax = vpDim)) :
    bMin ≤ ENSURE_RANGE_A_INSIDE_RANGE_B a vpDim bMin bMax - vpDim ∧
    ENSURE_RANGE_A_INSIDE_RANGE_B a vpDim bMin bMax + vpDim ≤ bMax :=
  (window_inside_iff a vpDim bMin bMax).mpr hfit

theorem ENSURE_RANGE_window_inside_witness :
    ((0 : ℚ) < 1 / 2 ∧ (-1 / 2 : ℚ) < 1 / 2 ∧
      (2 * (1 / 2 : ℚ) < 1 / 2 - -1 / 2 ∨ ((-1 / 2 : ℚ) = -(1 / 2) ∧ (1 / 2 : ℚ) = 1 / 2))) ∧
    ((-1 / 2 : ℚ) ≤ ENSURE_RANGE_A_INSIDE_RANGE_B 0 (1 / 2) (-1 / 2) (1 / 2) - 1 / 2 ∧
     ENSURE_RANGE_A_INSIDE_RANGE_B 0 (1 / 2) (-1 / 2) (1 / 2) + 1 / 2 ≤ 1 / 2) :=
  ⟨⟨by norm_num, by norm_num, Or.inr ⟨by norm_num, rfl⟩⟩,
   ENSURE_RANGE_window_inside 0 (1 / 2) (-1 / 2) (1 / 2) (by norm_num) (by norm_num)
     (Or.inr ⟨by norm_num, rfl⟩)⟩

/-- C9: snap to zero: for every center `a`, half-size `vpDim` and bounds `bMin`,
`bMax` with `2 * vpDim ≥ bMax - bMin`, the center that the clamp rule produces is `0`. -/
theorem ENSURE_RANGE_snap_to_zero (a vpDim bMin bMax : ℚ) (h : 2 * vpDim ≥ bMax - bMin) :
    ENSURE_RANGE_A_INSIDE_RANGE_B a vpDim bMin bMax = 0 := by
  simp only [ENSURE_RANGE_A_INSIDE_RANGE_B, if_pos h]

theorem ENSURE_RANGE_snap_to_zero_witness :
    (2 * (1 / 2 : ℚ) ≥ 1 / 2 - -1 / 2) ∧
    ENSURE_RANGE_A_INSIDE_RANGE_B 7 (1 / 2) (-1 / 2) (1 / 2) = 0 :=
  ⟨by norm_num, ENSURE_RANGE_snap_to_zero 7 (1 / 2) (-1 / 2) (1 / 2) (by norm_num)⟩

/-! ## The quad and the projection of `renderFrame` -/

theorem truncToInt_zero_mul (q : ℚ) : truncToInt (0.0 * q) = 0 := by
  have h : (0.0 : ℚ) * q = 0 := by norm_num
  rw [h]
  rfl

/-- C10: for every surface size `backingWidth > 0`, `backingHeight > 0`, `renderFrame`
computes the quad vertices `(-1/2,-1/2)`, `(1/2,-1/2)`, `(-1/2,1/2)`, `(1/2,1/2)`, the
half-size `vpDim = 1/2`, the clamped zoom center `(0, 0)`, the rotation `0` and the
matrix `load_orthographic_matrix(-1/2, 1/2, -1/2, 1/2, 0, 1/2)`; with rotation `0`
(`cos = 1`, `sin = 0`) the vertex shader maps the four vertices to `(-1,-1)`, `(1,-1)`,
`(-1,1)`, `(1,1)` with `w = 1`, whatever the surface size. -/
theorem renderFrame_quad_fills_surface (g : Globals) (hw : 0 < g.backingWidth)
    (hh : 0 < g.backingHeight) :
    (renderFrame g).2.squareVertices =
      [-1 / 2, -1 / 2, 1 / 2, -1 / 2, -1 / 2, 1 / 2, 1 / 2, 1 / 2] ∧
    (renderFrame g).2.vpDim = 1 / 2 ∧
    (renderFrame g).2.zoom_cx = 0 ∧ (renderFrame g).2.zoom_cy = 0 ∧
    (renderFrame g).2.rad = 0 ∧
    (renderFrame g).2.mat =
      load_orthographic_matrix (-1 / 2) (1 / 2) (-1 / 2) (1 / 2) 0 (1 / 2) ∧
    gVertexShader (renderFrame g).2.mat 1 0 (-1 / 2, -1 / 2) = (-1, -1, -1, 1) ∧
    gVertexShader (renderFrame g).2.mat 1 0 (1 / 2, -1 / 2) = (1, -1, -1, 1) ∧
    gVertexShader (renderFrame g).2.mat 1 0 (-1 / 2, 1 / 2) = (-1, 1, -1, 1) ∧
    gVertexShader (renderFrame g).2.mat 1 0 (1 / 2, 1 / 2) = (1, 1, -1, 1) := by
  have hW : (g.backingWidth : ℚ) ≠ 0 := by
    have : (0 : ℚ) < g.backingWidth := by exact_mod_cast hw
    exact ne_of_gt this
  have hH : (g.backingHeight : ℚ) ≠ 0 := by
    have : (0 : ℚ) < g.backingHeight := by exact_mod_cast hh
    exact ne_of_gt this
  have hx0 : ((0 : ℚ) - g.backingWidth * 0.5) / g.backingWidth - 0 = -1 / 2 := by
    rw [sub_zero, zero_sub, neg_div, mul_div_assoc, mul_comm, div_mul_cancel₀ _ hW]
    norm_num
  have hx1 : ((0 : ℚ) + g.backingWidth * 0.5) / g.backingWidth - 0 = 1 / 2 := by
    rw [sub_zero, zero_add, mul_div_assoc, mul_comm, div_mul_cancel₀ _ hW]
    norm_num
  have hy0 : ((0 : ℚ) - g.backingHeight * 0.5) / g.backingHeight - 0 = -1 / 2 := by
    rw [sub_zero, zero_sub, neg_div, mul_div_assoc, mul_comm, div_mul_cancel₀ _ hH]
    norm_num
  have hy1 : ((0 : ℚ) + g.backingHeight * 0.5) / g.backingHeight - 0 = 1 / 2 := by
    rw [sub_zero, zero_add, mul_div_assoc, mul_comm, div_mul_cancel₀ _ hH]
    norm_num
  have hsv : (renderFrame g).2.squareVertices =
      [-1 / 2, -1 / 2, 1 / 2, -1 / 2, -1 / 2, 1 / 2, 1 / 2, 1 / 2] := by
    simp only [renderFrame, truncToInt_zero_mul, Int.cast_zero, hx0, hx1, hy0, hy1]
  have hvp : (renderFrame g).2.vpDim = 1 / 2 := by
    simp only [renderFrame]
    norm_num
  have hcx : (renderFrame g).2.zoom_cx = 0 := by
    simp only [renderFrame, truncToInt_zero_mul, Int.cast_zero, hx0, hx1, hy0, hy1,
      List.getD_cons_zero, List.getD_cons_succ]
    apply snap_when_crop_covers
    norm_num
  have hcy : (renderFrame g).2.zoom_cy = 0 := by
    simp only [renderFrame, truncToInt_zero_mul, Int.cast_zero, hx0, hx1, hy0, hy1,
      List.getD_cons_zero, List.getD_cons_succ]
    apply snap_when_crop_covers
    norm_num
  have hrad : (renderFrame g).2.rad = 0 := by
    simp only [renderFrame, degreesToRadians]
    norm_num
  have hmat : (renderFrame g).2.mat =
      load_orthographic_matrix (-1 / 2) (1 / 2) (-1 / 2) (1 / 2) 0 (1 / 2) := by
    have e : (renderFrame g).2.mat =
        load_orthographic_matrix ((renderFrame g).2.zoom_cx - (renderFrame g).2.vpDim)
          ((renderFrame g).2.zoom_cx + (renderFrame g).2.vpDim)
          ((renderFrame g).2.zoom_cy - (renderFrame g).2.vpDim)
          ((renderFrame g).2.zoom_cy + (renderFrame g).2.vpDim) 0 0.5 := rfl
    rw [e, hcx, hcy, hvp]
    norm_num
  refine ⟨hsv, hvp, hcx, hcy, hrad, hmat, ?_, ?_, ?_, ?_⟩ <;>
    · rw [hmat]
      norm_num [gVertexShader, load_orthographic_matrix]

theorem renderFrame_quad_fills_surface_witness :
    (0 < globalsAfterSetup.backingWidth ∧ 0 < globalsAfterSetup.backingHeight) ∧
    ((renderFrame globalsAfterSetup).2.squareVertices =
      [-1 / 2, -1 / 2, 1 / 2, -1 / 2, -1 / 2, 1 / 2, 1 / 2, 1 / 2] ∧
    (renderFrame globalsAfterSetup).2.vpDim = 1 / 2 ∧
    (renderFrame globalsAfterSetup).2.zoom_cx = 0 ∧
    (renderFrame globalsAfterSetup).2.zoom_cy = 0 ∧
    (renderFrame globalsAfterSetup).2.rad = 0 ∧
    (renderFrame globalsAfterSetup).2.mat =
      load_orthographic_matrix (-1 / 2) (1 / 2) (-1 / 2) (1 / 2) 0 (1 / 2) ∧
    gVertexShader (renderFrame globalsAfterSetup).2.mat 1 0 (-1 / 2, -1 / 2) = (-1, -1, -1, 1) ∧
    gVertexShader (renderFrame globalsAfterSetup).2.mat 1 0 (1 / 2, -1 / 2) = (1, -1, -1, 1) ∧
    gVertexShader (renderFrame globalsAfterSetup).2.mat 1 0 (-1 / 2, 1 / 2) = (-1, 1, -1, 1) ∧
    gVertexShader (renderFrame globalsAfterSetup).2.mat 1 0 (1 / 2, 1 / 2) = (1, 1, -1, 1)) :=
  ⟨by decide, renderFrame_quad_fills_surface globalsAfterSetup (by decide) (by decide)⟩

end GlCode
